import Mathlib

/-!
# beeline-checker: the account-summary pipeline

A shallow embedding of `apiGet`, `updateToken` and `getSummary` from
`beeline-checker.go`, and theorems about them.

Modelling conventions.

* The process-wide `CFG` and the sequence of `apiGet` invocations made so far
  form an explicit `World` threaded through every function.
* The carrier API is an arbitrary function `Upstream` of the invocations made
  so far and of the current request; it answers with what `http.NewRequest`,
  `client.Do` and the JSON decoder produce.
* A Go `error` is modelled by its message (`err.Error()`), the only thing the
  program ever inspects or returns; `none` is the `nil` error.
* A failed type assertion, an index out of range and an assignment into a `nil`
  map are run-time panics: `Run.panic`.
* `getSummary` calls itself; the embedding takes a recursion budget and answers
  `Run.outOfFuel` when it is exhausted.
* A `float64` is an IEEE-754 binary64 value `F64`: a sign with a rational
  magnitude, an infinity or NaN; `*` and `/` round the exact result to the
  nearest binary64 value, ties to even, and overflow to an infinity.
* Logging and `writeYML` (whose result `updateToken` discards) do not touch
  `CFG` and are left out.
-/

namespace BeelineChecker

/-! ## Binary64 arithmetic -/

/-- A Go `float64`: the finite value `(-1)^neg * mag` (with `mag ≥ 0`, so that
both zeros exist), an infinity or NaN. -/
inductive F64 where
  | finite (neg : Bool) (mag : ℚ)
  | inf (neg : Bool)
  | nan
  deriving DecidableEq, Repr

/-- The quotient `a / b` rounded to the nearest natural number, ties to even. -/
def divRoundEven (a b : Nat) : Nat :=
  let k := a / b
  let r := a % b
  if 2 * r < b then k else if b < 2 * r then k + 1 else if k % 2 = 0 then k else k + 1

/-- The number of binary digits of `n`; the first argument bounds the recursion. -/
def bitLength : Nat → Nat → Nat
  | 0, _ => 0
  | fuel + 1, n => if n = 0 then 0 else bitLength fuel (n / 2) + 1

/-- The integer part of the binary logarithm of `n / d`, for positive `n`, `d`. -/
def floorLog2 (n d : Nat) : Int :=
  let l : Int := (bitLength n n : Int) - (bitLength d d : Int)
  if (if 0 ≤ l then d * 2 ^ l.toNat ≤ n else d ≤ n * 2 ^ (-l).toNat) then l else l - 1

/-- The binary64 magnitude nearest to `n / d`, ties to even: 53 significant
bits, exponents down to `-1074` (subnormals); `none` is the overflow, a
rounded result of `2^1024` or more. -/
def roundMag (n d : Nat) : Option ℚ :=
  if n = 0 then some 0
  else
    let e : Int := max (floorLog2 n d - 52) (-1074)
    if 0 ≤ e then
      let m := divRoundEven n (d * 2 ^ e.toNat)
      if 2 ^ 1024 ≤ m * 2 ^ e.toNat then none else some ((m * 2 ^ e.toNat : Nat) : ℚ)
    else
      let m := divRoundEven (n * 2 ^ (-e).toNat) d
      some ((m : ℚ) / ((2 ^ (-e).toNat : Nat) : ℚ))

/-- The binary64 value with the given sign nearest to the magnitude `q ≥ 0`. -/
def F64.ofMag (neg : Bool) (q : ℚ) : F64 :=
  match roundMag q.num.natAbs q.den with
  | some r => .finite neg r
  | none => .inf neg

/-- The binary64 value nearest to a rational: the conversion of a decimal
literal by `strconv.ParseFloat`. -/
def F64.ofRat (q : ℚ) : F64 :=
  F64.ofMag (decide (q < 0)) |q|

/-- The conversion of an integer constant to `float64`. -/
def F64.ofNat (n : Nat) : F64 :=
  F64.ofMag false n

/-- The `float64` product. -/
def F64.mul : F64 → F64 → F64
  | .nan, _ => .nan
  | _, .nan => .nan
  | .inf s, .inf t => .inf (xor s t)
  | .inf s, .finite t b => if b = 0 then .nan else .inf (xor s t)
  | .finite s a, .inf t => if a = 0 then .nan else .inf (xor s t)
  | .finite s a, .finite t b => F64.ofMag (xor s t) (a * b)

/-- The `float64` quotient. -/
def F64.div : F64 → F64 → F64
  | .nan, _ => .nan
  | _, .nan => .nan
  | .inf _, .inf _ => .nan
  | .inf s, .finite t _ => .inf (xor s t)
  | .finite s _, .inf t => .finite (xor s t) 0
  | .finite s a, .finite t b =>
    if b = 0 then (if a = 0 then .nan else .inf (xor s t)) else F64.ofMag (xor s t) (a / b)

instance : Mul F64 := ⟨F64.mul⟩

instance : Div F64 := ⟨F64.div⟩

instance (n : Nat) : OfNat F64 n := ⟨F64.ofNat n⟩

/-- Go's `math.Round`: the nearest integer, halves away from zero, the sign
kept; infinities and NaN are returned unchanged. -/
def goRound : F64 → F64
  | .finite s m => .finite s ((⌊m + 1 / 2⌋ : Int) : ℚ)
  | x => x

/-! ## Data model -/

/-- Decoded JSON, as `encoding/json` stores it in an `interface{}`:
`nil`, `bool`, `float64`, `string`, `[]interface{}`, `map[string]interface{}`. -/
inductive JSON where
  | null
  | bool (b : Bool)
  | num (x : F64)
  | str (s : String)
  | arr (xs : List JSON)
  | obj (kvs : List (String × JSON))

/-- A decoded `map[string]interface{}`; the `nil` map is the empty list. -/
abbrev JObj := List (String × JSON)

/-- Map indexing `m[k]`: a missing key (and a JSON `null`) reads as `nil`. -/
def jget (m : JObj) (k : String) : JSON :=
  (m.lookup k).getD JSON.null

/-- Type assertion `x.(string)`; `none` is the panic. -/
def JSON.asString : JSON → Option String
  | .str s => some s
  | _ => none

/-- Type assertion `x.(float64)`; `none` is the panic. -/
def JSON.asFloat : JSON → Option F64
  | .num x => some x
  | _ => none

/-- Type assertion `x.([]interface{})`; `none` is the panic. -/
def JSON.asSlice : JSON → Option (List JSON)
  | .arr xs => some xs
  | _ => none

/-- Type assertion `x.(map[string]interface{})`; `none` is the panic. -/
def JSON.asMap : JSON → Option JObj
  | .obj kvs => some kvs
  | _ => none

/-- The test `x != nil` on an `interface{}`. -/
def JSON.isNil : JSON → Bool
  | .null => true
  | _ => false

/-- Account struct. -/
structure Account where
  Login : Int := 0
  Password : String := ""
  Token : String := ""
  deriving DecidableEq, Repr

/-- Config struct; a `nil` `Accounts` map is `none`. -/
structure Config where
  ListenPort : Int := 0
  BeelineAPI : String := ""
  Accounts : Option (List (String × Account)) := none
  DebugMode : Bool := false
  deriving DecidableEq, Repr

/-- Summary struct. -/
structure Summary where
  Name : String := ""
  Number : Int := 0
  Status : String := ""
  Gigabytes : F64 := 0
  Minutes : F64 := 0
  SMS : F64 := 0
  Balance : F64 := 0
  deriving DecidableEq, Repr

/-- The message of a Go `error`. -/
abbrev Err := String

/-- One invocation of `apiGet`: the endpoint and the query parameters. -/
structure Request where
  endpoint : String
  params : List (String × String)
  deriving DecidableEq, Repr

/-- What the HTTP stack gives back for one request. -/
inductive HttpOutcome where
  /-- `http.NewRequest` returned the error `err`. -/
  | newRequestFailed (err : Err)
  /-- `client.Do` returned an error. -/
  | doFailed
  /-- A response with its status code; `body` is `none` when the JSON decoder
  fails and the decoded object otherwise. -/
  | response (statusCode : Int) (body : Option JObj)

/-- The carrier API: the answer to a request, given the earlier requests. -/
abbrev Upstream := List Request → Request → HttpOutcome

/-- The global `CFG` together with the `apiGet` invocations made so far. -/
structure World where
  CFG : Config
  trace : List Request

/-- Result of running a Go function in a world. -/
inductive Run (α : Type) where
  | done (a : α) (w : World)
  | panic (w : World)
  | outOfFuel (w : World)

/-- The world a run stopped in. -/
def Run.world {α : Type} : Run α → World
  | .done _ w => w
  | .panic w => w
  | .outOfFuel w => w

/-- Map read `CFG.Accounts[accName]`: the zero `Account` when the key is absent
or the map is `nil`. -/
def Config.account (c : Config) (accName : String) : Account :=
  match c.Accounts with
  | none => {}
  | some m => (m.lookup accName).getD {}

/-- Map write `m[k] = a` on a non-nil map. -/
def mapAssign : List (String × Account) → String → Account → List (String × Account)
  | [], k, a => [(k, a)]
  | (k', a') :: m, k, a => if k' = k then (k, a) :: m else (k', a') :: mapAssign m k a

/-- The world after `apiGet` has been entered with `req`. -/
def World.record (w : World) (req : Request) : World :=
  { w with trace := w.trace ++ [req] }

/-! ## The program -/

/-- Function `apiGet` (lines 143-182). -/
def apiGet (up : Upstream) (endpoint : String) (params : List (String × String))
    (w : World) : Run (JObj × Option Err) :=
  let req : Request := ⟨endpoint, params⟩
  let w1 := w.record req
  match up w.trace req with
  | .newRequestFailed err => .done ([], some err) w1
  | .doFailed => .done ([], some "API request failed") w1
  | .response _ none => .done ([], some "API response decode failed") w1
  | .response statusCode (some res) =>
    if statusCode = 200 then
      match (jget res "meta").asMap with
      | none => .panic w1
      | some meta =>
        if (jget meta "status").asString ≠ some "OK" then
          match (jget meta "message").asString with
          | none => .panic w1
          | some message => .done (res, some message) w1
        else .done (res, none) w1
    else .done (res, some (toString statusCode)) w1

/-- Function `updateToken` (lines 185-195). -/
def updateToken (up : Upstream) (accName : String) (w : World) : Run (Option Err) :=
  let acc := w.CFG.account accName
  match apiGet up "auth" [("login", toString acc.Login), ("password", acc.Password)] w with
  | .panic w1 => .panic w1
  | .outOfFuel w1 => .outOfFuel w1
  | .done (_, some err) w1 => .done (some err) w1
  | .done (res, none) w1 =>
    match (jget res "token").asString with
    | none => .panic w1
    | some token =>
      match w1.CFG.Accounts with
      | none => .panic w1
      | some m =>
        .done none { w1 with CFG := { w1.CFG with
          Accounts := some (mapAssign m accName { acc with Token := token }) } }

/-- The expression `x.([]interface{})[0].(map[string]interface{})["value"].(float64)`
of lines 234-235, 238-239 and 242-243; `none` is a panic (failed assertion
or index out of range). -/
def firstValue (x : JSON) : Option F64 :=
  match x.asSlice with
  | some (tmp :: _) =>
    match tmp.asMap with
    | some m => (jget m "value").asFloat
    | none => none
  | _ => none

/-- Lines 233-244 of `getSummary`: the counters of a successful
`prepaidAddBalance` answer; `none` is a panic. -/
def readCounters (resp : JObj) (res : Summary) : Option Summary :=
  let step1 : Option Summary :=
    if (jget resp "balanceTime").isNil then some res
    else (firstValue (jget resp "balanceTime")).map fun v => { res with Minutes := v / 60 }
  let step2 : Option Summary := step1.bind fun res =>
    if (jget resp "balanceSMS").isNil then some res
    else (firstValue (jget resp "balanceSMS")).map fun v => { res with SMS := v }
  step2.bind fun res =>
    if (jget resp "balanceData").isNil then some res
    else (firstValue (jget resp "balanceData")).map fun v =>
      { res with Gigabytes := v / F64.ofNat (1024 * 1024 * 1024) }

/-- Lines 252-257 of `getSummary`: the loop over the accumulators, threading
`res.Gigabytes`; `none` is a panic. -/
def readAccumulators : List JSON → F64 → Option F64
  | [], g => some g
  | v :: vs, g =>
    match v.asMap with
    | none => none
    | some tmp =>
      if (jget tmp "soc").asString = some "VYOUNG" then
        match (jget tmp "rest").asFloat with
        | none => none
        | some rest => readAccumulators vs (rest / F64.ofNat (1024 * 1024))
      else readAccumulators vs g

/-- The expression `resp["pricePlanInfo"].(map[string]interface{})["name"].(string)`
of line 249; `none` is a panic. -/
def planName (resp : JObj) : Option String :=
  match (jget resp "pricePlanInfo").asMap with
  | none => none
  | some info => (jget info "name").asString

/-- Lines 230-245 of `getSummary`: the `prepaidAddBalance` call. -/
def getCounters (up : Upstream) (params : List (String × String)) (res : Summary)
    (w : World) : Run Summary :=
  match apiGet up "info/prepaidAddBalance" params w with
  | .panic w1 => .panic w1
  | .outOfFuel w1 => .outOfFuel w1
  | .done (_, some _) w1 => .done res w1
  | .done (resp, none) w1 =>
    match readCounters resp res with
    | none => .panic w1
    | some res => .done res w1

/-- Lines 247-259 of `getSummary`: the `pricePlan` call and, for the plan
`VYOUNG`, the `accumulators` call. -/
def getPlanCounters (up : Upstream) (params : List (String × String)) (res : Summary)
    (w : World) : Run Summary :=
  match apiGet up "info/pricePlan" params w with
  | .panic w1 => .panic w1
  | .outOfFuel w1 => .outOfFuel w1
  | .done (_, some _) w1 => .done res w1
  | .done (resp, none) w1 =>
    match planName resp with
    | none => .panic w1
    | some name =>
      if name = "VYOUNG" then
        match apiGet up "info/accumulators" params w1 with
        | .panic w2 => .panic w2
        | .outOfFuel w2 => .outOfFuel w2
        | .done (_, some _) w2 => .done res w2
        | .done (resp, none) w2 =>
          match (jget resp "accumulators").asSlice with
          | none => .panic w2
          | some vs =>
            match readAccumulators vs res.Gigabytes with
            | none => .panic w2
            | some g => .done { res with Gigabytes := g } w2
      else .done res w1

/-- Lines 261-270 of `getSummary`: the rounding, the `prepaidBalance` call and
the return. -/
def getBalance (up : Upstream) (params : List (String × String)) (res : Summary)
    (w : World) : Run (Summary × Option Err) :=
  let res := { res with Gigabytes := goRound (res.Gigabytes * 100) / 100 }
  match apiGet up "info/prepaidBalance" params w with
  | .panic w1 => .panic w1
  | .outOfFuel w1 => .outOfFuel w1
  | .done (_, some err) w1 => .done (res, some err) w1
  | .done (resp, none) w1 =>
    match (jget resp "balance").asFloat with
    | none => .panic w1
    | some balance => .done ({ res with Balance := balance }, none) w1

/-- The parameters `{"ctn": FormatInt(acc.Login), "token": acc.Token}` of every
metric call. -/
def ctnParams (acc : Account) : List (String × String) :=
  [("ctn", toString acc.Login), ("token", acc.Token)]

/-- Lines 228-270 of `getSummary`: what follows a successful status call. -/
def getMetrics (up : Upstream) (acc : Account) (res : Summary) (resp : JObj)
    (w : World) : Run (Summary × Option Err) :=
  match (jget resp "status").asString with
  | none => .panic w
  | some status =>
    match getCounters up (ctnParams acc) { res with Status := status } w with
    | .panic w1 => .panic w1
    | .outOfFuel w1 => .outOfFuel w1
    | .done res w1 =>
      match getPlanCounters up (ctnParams acc) res w1 with
      | .panic w2 => .panic w2
      | .outOfFuel w2 => .outOfFuel w2
      | .done res w2 => getBalance up (ctnParams acc) res w2

/-- Lines 202-213 of `getSummary`: the token check; returns the account to use
and the error of `updateToken`. -/
def checkToken (up : Upstream) (accName : String) (w : World) : Run (Account × Option Err) :=
  let acc := w.CFG.account accName
  if acc.Token = "" then
    match updateToken up accName w with
    | .panic w1 => .panic w1
    | .outOfFuel w1 => .outOfFuel w1
    | .done (some err) w1 => .done (acc, some err) w1
    | .done none w1 => .done (w1.CFG.account accName, none) w1
  else .done (acc, none) w

/-- Function `getSummary` (lines 198-271); the first argument bounds the depth
of the recursion of line 224. -/
def getSummary (up : Upstream) : Nat → String → World → Run (Summary × Option Err)
  | 0, _, w => .outOfFuel w
  | fuel + 1, accName, w =>
    let res : Summary := { Name := accName, Number := (w.CFG.account accName).Login }
    match checkToken up accName w with
    | .panic w1 => .panic w1
    | .outOfFuel w1 => .outOfFuel w1
    | .done (_, some err) w1 => .done (res, some err) w1
    | .done (acc, none) w1 =>
      match apiGet up "info/status" (ctnParams acc) w1 with
      | .panic w2 => .panic w2
      | .outOfFuel w2 => .outOfFuel w2
      | .done (_, some err) w2 =>
        if err = "TOKEN_NOT_FOUND" ∨ err = "TOKEN_EXPIRED" then
          match updateToken up accName w2 with
          | .panic w3 => .panic w3
          | .outOfFuel w3 => .outOfFuel w3
          | .done (some err) w3 => .done (res, some err) w3
          | .done none w3 => getSummary up fuel accName w3
        else .done (res, some err) w2
      | .done (resp, none) w2 => getMetrics up acc res resp w2

/-! ## Test upstreams -/

/-- The envelope `{"meta": {"status": status, "code": code, "message": message}}`
extended with the payload fields. -/
def envelope (status : String) (code : F64) (message : String) (payload : JObj) : JObj :=
  ("meta", JSON.obj [("status", .str status), ("code", .num code), ("message", .str message)])
    :: payload

/-- A successful answer: HTTP 200 and `meta.status = "OK"`. -/
def okResponse (payload : JObj) : HttpOutcome :=
  .response 200 (some (envelope "OK" 20000 "OK" payload))

/-- A rejected answer: HTTP 200 and `meta.status = "ERROR"` with the message. -/
def errResponse (message : String) : HttpOutcome :=
  .response 200 (some (envelope "ERROR" 20002 message []))

/-- An upstream whose answer depends on the endpoint only. -/
def upDemo : Upstream := fun _ req =>
  match req.endpoint with
  | "auth" => okResponse [("token", .str "T1")]
  | "info/status" => okResponse [("status", .str "ACTIVE")]
  | "info/prepaidAddBalance" =>
    okResponse [("balanceTime", .arr [.obj [("value", .num 600)]]),
                ("balanceSMS", .arr [.obj [("value", .num 50)]]),
                ("balanceData", .arr [.obj [("value", .num 3221225472)]])]
  | "info/pricePlan" => okResponse [("pricePlanInfo", .obj [("name", .str "OTHER")])]
  | "info/prepaidBalance" => okResponse [("balance", .num 125)]
  | _ => .doFailed

/-- A store with one authenticated account. -/
def worldDemo : World :=
  { CFG := { Accounts := some [("home", { Login := 9031234567, Password := "pw", Token := "T0" })] },
    trace := [] }

/-- A store without any account. -/
def worldEmpty : World :=
  { CFG := { Accounts := some [] }, trace := [] }

/-- An upstream answering every request with HTTP 201 and an `OK` envelope. -/
def upCreated : Upstream := fun _ _ =>
  .response 201 (some (envelope "OK" 20000 "OK" []))

/-- An upstream rejecting every request with the message `TOKEN_EXPIRED`. -/
def upRejecting : Upstream := fun _ _ => errResponse "TOKEN_EXPIRED"

/-- An upstream that cannot be reached: `client.Do` fails on every request. -/
def upDown : Upstream := fun _ _ => .doFailed

/-- An upstream whose plan is `VYOUNG`: the `prepaidAddBalance` call fails, the
accumulators carry `{soc: "VYOUNG", rest: 2097152}`. -/
def upVyoung : Upstream := fun _ req =>
  match req.endpoint with
  | "auth" => okResponse [("token", .str "T1")]
  | "info/status" => okResponse [("status", .str "ACTIVE")]
  | "info/prepaidAddBalance" => .doFailed
  | "info/pricePlan" => okResponse [("pricePlanInfo", .obj [("name", .str "VYOUNG")])]
  | "info/accumulators" =>
    okResponse [("accumulators", .arr [.obj [("soc", .str "OTHER"), ("rest", .num 5)],
      .obj [("soc", .str "VYOUNG"), ("rest", .num 2097152)]])]
  | "info/prepaidBalance" => okResponse [("balance", .num 125)]
  | _ => .doFailed

/-- An upstream like `upVyoung` whose `prepaidAddBalance` call succeeds and
reports 3221225472 bytes. -/
def upVyoungData : Upstream := fun t req =>
  match req.endpoint with
  | "info/prepaidAddBalance" =>
    okResponse [("balanceData", .arr [.obj [("value", .num 3221225472)]])]
  | _ => upVyoung t req

/-- An upstream like `upDemo` whose `prepaidAddBalance` answer carries
`"balanceData": [{"value": 16106127.36}]` only. -/
def upFraction : Upstream := fun t req =>
  match req.endpoint with
  | "info/prepaidAddBalance" =>
    okResponse [("balanceData", .arr [.obj [("value", .num (F64.ofRat (1610612736 / 100)))]])]
  | _ => upDemo t req

/-- An upstream where only the status and `prepaidBalance` calls succeed. -/
def upPartial : Upstream := fun _ req =>
  match req.endpoint with
  | "info/status" => okResponse [("status", .str "ACTIVE")]
  | "info/prepaidBalance" => okResponse [("balance", .num 125)]
  | _ => .doFailed

/-- An upstream where only the status call succeeds. -/
def upStatusOnly : Upstream := fun _ req =>
  match req.endpoint with
  | "info/status" => okResponse [("status", .str "ACTIVE")]
  | _ => .response 503 (some [])

/-- An upstream whose `prepaidAddBalance` answer carries an empty
`balanceTime` list. -/
def upEmptyList : Upstream := fun t req =>
  match req.endpoint with
  | "info/prepaidAddBalance" => okResponse [("balanceTime", .arr [])]
  | _ => upDemo t req

/-- An upstream that always accepts `auth` and always rejects the status call
with `TOKEN_EXPIRED`. -/
def upAlwaysExpired : Upstream := fun _ req =>
  match req.endpoint with
  | "auth" => okResponse [("token", .str "T1")]
  | _ => errResponse "TOKEN_EXPIRED"

/-- An upstream that rejects the first two status calls with `TOKEN_EXPIRED` and
otherwise answers like `upDemo`. -/
def upExpiredTwice : Upstream := fun t req =>
  match req.endpoint with
  | "info/status" =>
    if (t.filter fun r => r.endpoint == "info/status").length < 2 then
      errResponse "TOKEN_EXPIRED"
    else upDemo t req
  | _ => upDemo t req

/-- A store with one account that has no token yet. -/
def worldFresh : World :=
  { CFG := { Accounts := some [("home", { Login := 9031234567, Password := "pw", Token := "" })] },
    trace := [] }

/-- The world `worldDemo` turns into after a rejected status call and a
refresh of the token of `home`. -/
def worldRefreshed : World :=
  { CFG := { Accounts := some [("home", { Login := 9031234567, Password := "pw", Token := "T1" })] },
    trace := [⟨"info/status", [("ctn", "9031234567"), ("token", "T0")]⟩,
      ⟨"auth", [("login", "9031234567"), ("password", "pw")]⟩] }

/-- The `auth` request `updateToken` issues for an account. -/
def authRequest (acc : Account) : Request :=
  ⟨"auth", [("login", toString acc.Login), ("password", acc.Password)]⟩

/-- The trace of `w2` continues the trace of `w`. -/
def Extends (w w2 : World) : Prop :=
  ∃ rest, w2.trace = w.trace ++ rest

/-! ## The specification's data source -/

/-- The `rest` figure of the last accumulator entry whose `soc` is `"VYOUNG"`. -/
def specVyoungRest : List JSON → Option F64
  | [] => none
  | v :: vs =>
    match specVyoungRest vs with
    | some rest => some rest
    | none =>
      match v.asMap with
      | some tmp =>
        if (jget tmp "soc").asString = some "VYOUNG" then (jget tmp "rest").asFloat else none
      | none => none

/-- The accumulator override of the specification, in gigabytes: defined when
the `pricePlan` call succeeds with plan name `"VYOUNG"` and the `accumulators`
call succeeds with an entry whose `soc` is `"VYOUNG"`; `w` is the world in
which the `pricePlan` call is made. -/
def specOverride (up : Upstream) (params : List (String × String)) (w : World) : Option F64 :=
  match apiGet up "info/pricePlan" params w with
  | .done (plan, none) w1 =>
    if planName plan = some "VYOUNG" then
      match apiGet up "info/accumulators" params w1 with
      | .done (acc, none) _ =>
        (specVyoungRest (((jget acc "accumulators").asSlice).getD [])).map fun rest =>
          rest / F64.ofNat (2 ^ 20)
      | _ => none
    else none
  | _ => none

/-- The primary data figure of the specification, in gigabytes: the value of
the first `balanceData` entry of a successful `prepaidAddBalance` call, and 0
otherwise; `w` is the world in which that call is made. -/
def specPrimary (up : Upstream) (params : List (String × String)) (w : World) : F64 :=
  match apiGet up "info/prepaidAddBalance" params w with
  | .done (resp, none) _ =>
    match firstValue (jget resp "balanceData") with
    | some value => value / F64.ofNat (2 ^ 30)
    | none => 0
  | _ => 0

/-- The data source of the specification: the accumulator override when it is
defined, the primary figure otherwise; `w` is the world after the status
call. -/
def specDataSource (up : Upstream) (params : List (String × String)) (w : World) : F64 :=
  match specOverride up params (w.record ⟨"info/prepaidAddBalance", params⟩) with
  | some gigabytes => gigabytes
  | none => specPrimary up params w

/-! ## Basic facts -/

theorem apiGet_shape (up : Upstream) (endpoint : String) (params : List (String × String))
    (w : World) :
    (∃ res err, apiGet up endpoint params w = .done (res, err) (w.record ⟨endpoint, params⟩)) ∨
      apiGet up endpoint params w = .panic (w.record ⟨endpoint, params⟩) := by
  unfold apiGet
  dsimp only
  split
  · exact Or.inl ⟨_, _, rfl⟩
  · exact Or.inl ⟨_, _, rfl⟩
  · exact Or.inl ⟨_, _, rfl⟩
  · split
    · split
      · exact Or.inr rfl
      · split
        · split
          · exact Or.inr rfl
          · exact Or.inl ⟨_, _, rfl⟩
        · exact Or.inl ⟨_, _, rfl⟩
    · exact Or.inl ⟨_, _, rfl⟩

theorem apiGet_done_world {up : Upstream} {endpoint : String} {params : List (String × String)}
    {w w1 : World} {r : JObj × Option Err}
    (h : apiGet up endpoint params w = .done r w1) : w1 = w.record ⟨endpoint, params⟩ := by
  rcases apiGet_shape up endpoint params w with ⟨res, err, h1⟩ | h1
  · rw [h1] at h
    injection h with _ hw
    exact hw.symm
  · rw [h1] at h
    cases h

theorem lookup_mapAssign_self (m : List (String × Account)) (k : String) (a : Account) :
    (mapAssign m k a).lookup k = some a := by
  induction m with
  | nil => simp [mapAssign, List.lookup]
  | cons p m ih =>
    obtain ⟨k1, a1⟩ := p
    by_cases h : k1 = k
    · simp [mapAssign, h, List.lookup]
    · have h2 : (k == k1) = false := by
        simp only [beq_eq_false_iff_ne, ne_eq]
        exact fun e => h e.symm
      simp [mapAssign, h, List.lookup, h2, ih]

theorem lookup_mapAssign_other (m : List (String × Account)) (k k2 : String) (a : Account)
    (hk : k2 ≠ k) : (mapAssign m k a).lookup k2 = m.lookup k2 := by
  induction m with
  | nil =>
    have h2 : (k2 == k) = false := by simpa using hk
    simp [mapAssign, List.lookup, h2]
  | cons p m ih =>
    obtain ⟨k1, a1⟩ := p
    by_cases h : k1 = k
    · subst h
      have h2 : (k2 == k1) = false := by simpa using hk
      simp [mapAssign, List.lookup, h2]
    · simp only [mapAssign, h, if_false, List.lookup]
      cases (k2 == k1) <;> simp [ih]

theorem account_of_lookup {c : Config} {m : List (String × Account)} {k : String} {a : Account}
    (hm : c.Accounts = some m) (hk : m.lookup k = some a) : c.account k = a := by
  simp [Config.account, hm, hk]

theorem account_of_absent {c : Config} {m : List (String × Account)} {k : String}
    (hm : c.Accounts = some m) (hk : m.lookup k = none) : c.account k = {} := by
  simp [Config.account, hm, hk]

/-- What `updateToken` does once its `auth` call has succeeded with a string
token on a non-nil map. -/
theorem updateToken_success {up : Upstream} {accName : String} {w w1 : World} {res : JObj}
    {t : String} {m : List (String × Account)}
    (hm : w.CFG.Accounts = some m)
    (hcall : apiGet up "auth" [("login", toString (w.CFG.account accName).Login),
      ("password", (w.CFG.account accName).Password)] w = .done (res, none) w1)
    (htok : jget res "token" = .str t) :
    updateToken up accName w = .done none { w1 with CFG := { w1.CFG with
      Accounts := some (mapAssign m accName { w.CFG.account accName with Token := t }) } } := by
  have hw := apiGet_done_world hcall
  have hm1 : w1.CFG.Accounts = some m := by rw [hw]; exact hm
  unfold updateToken
  simp only [hcall, htok, JSON.asString, hm1]

/-- What `updateToken` does once its `auth` call has failed. -/
theorem updateToken_failure {up : Upstream} {accName : String} {w w1 : World} {res : JObj}
    {err : Err}
    (hcall : apiGet up "auth" [("login", toString (w.CFG.account accName).Login),
      ("password", (w.CFG.account accName).Password)] w = .done (res, some err) w1) :
    updateToken up accName w = .done (some err) w1 := by
  unfold updateToken
  simp only [hcall]

theorem asString_eq_some {x : JSON} {s : String} : x.asString = some s ↔ x = .str s := by
  cases x <;> simp [JSON.asString]

/-! ## The stages of `getSummary` -/

theorem checkToken_nonempty (up : Upstream) (accName : String) (w : World)
    (hTok : (w.CFG.account accName).Token ≠ "") :
    checkToken up accName w = .done (w.CFG.account accName, none) w := by
  unfold checkToken
  simp only [hTok, if_false]

theorem getSummary_of_status_ok {up : Upstream} {accName : String} {w w0 w1 : World}
    {acc : Account} {resp : JObj} (fuel : Nat)
    (hCheck : checkToken up accName w = .done (acc, none) w0)
    (hStatus : apiGet up "info/status" (ctnParams acc) w0 = .done (resp, none) w1) :
    getSummary up (fuel + 1) accName w =
      getMetrics up acc { Name := accName, Number := (w.CFG.account accName).Login } resp w1 := by
  simp only [getSummary, hCheck, hStatus]

theorem getSummary_of_status_err {up : Upstream} {accName : String} {w w0 w1 : World}
    {acc : Account} {resp : JObj} {err : Err} (fuel : Nat)
    (hCheck : checkToken up accName w = .done (acc, none) w0)
    (hStatus : apiGet up "info/status" (ctnParams acc) w0 = .done (resp, some err) w1)
    (h1 : err ≠ "TOKEN_NOT_FOUND") (h2 : err ≠ "TOKEN_EXPIRED") :
    getSummary up (fuel + 1) accName w =
      .done ({ Name := accName, Number := (w.CFG.account accName).Login }, some err) w1 := by
  simp only [getSummary, hCheck, hStatus, h1, h2, or_self, if_false]

theorem getSummary_of_expired {up : Upstream} {accName : String} {w w0 w1 : World}
    {acc : Account} {resp : JObj} {err : Err} (fuel : Nat)
    (hCheck : checkToken up accName w = .done (acc, none) w0)
    (hStatus : apiGet up "info/status" (ctnParams acc) w0 = .done (resp, some err) w1)
    (hErr : err = "TOKEN_NOT_FOUND" ∨ err = "TOKEN_EXPIRED") :
    getSummary up (fuel + 1) accName w =
      match updateToken up accName w1 with
      | .panic w2 => .panic w2
      | .outOfFuel w2 => .outOfFuel w2
      | .done (some err2) w2 =>
        .done ({ Name := accName, Number := (w.CFG.account accName).Login }, some err2) w2
      | .done none w2 => getSummary up fuel accName w2 := by
  simp only [getSummary, hCheck, hStatus, hErr, if_true]

theorem getCounters_of_failure {up : Upstream} {params : List (String × String)}
    {res : Summary} {w w1 : World} {resp : JObj} {err : Err}
    (h : apiGet up "info/prepaidAddBalance" params w = .done (resp, some err) w1) :
    getCounters up params res w = .done res w1 := by
  simp only [getCounters, h]

theorem getCounters_done {up : Upstream} {params : List (String × String)}
    {res res2 : Summary} {w w2 : World}
    (h : getCounters up params res w = .done res2 w2) :
    w2 = w.record ⟨"info/prepaidAddBalance", params⟩ ∧
      ∃ resp e, apiGet up "info/prepaidAddBalance" params w = .done (resp, e) w2 ∧
        ((∃ err, e = some err) ∧ res2 = res ∨ e = none ∧ readCounters resp res = some res2) := by
  unfold getCounters at h
  rcases apiGet_shape up "info/prepaidAddBalance" params w with ⟨resp, e, h1⟩ | h1
  · cases e with
    | some err =>
      simp only [h1] at h
      injection h with ha hw
      subst ha hw
      exact ⟨rfl, resp, some err, h1, Or.inl ⟨⟨err, rfl⟩, rfl⟩⟩
    | none =>
      simp only [h1] at h
      cases hr : readCounters resp res with
      | none => simp only [hr] at h; cases h
      | some r =>
        simp only [hr] at h
        injection h with ha hw
        subst ha hw
        exact ⟨rfl, resp, none, h1, Or.inr ⟨rfl, hr⟩⟩
  · simp only [h1] at h
    cases h

theorem readCounters_gigabytes {resp : JObj} {res res2 : Summary}
    (h : readCounters resp res = some res2) :
    res2.Gigabytes =
      match firstValue (jget resp "balanceData") with
      | some value => value / F64.ofNat (2 ^ 30)
      | none => res.Gigabytes := by
  unfold readCounters at h
  simp only [Option.bind_eq_some] at h
  obtain ⟨s2, ⟨s1, h1, h2⟩, h3⟩ := h
  have e1 : s1.Gigabytes = res.Gigabytes := by
    split at h1
    · injection h1 with h1; rw [← h1]
    · cases hv : firstValue (jget resp "balanceTime") with
      | none => rw [hv] at h1; cases h1
      | some v => rw [hv] at h1; injection h1 with h1; rw [← h1]
  have e2 : s2.Gigabytes = s1.Gigabytes := by
    split at h2
    · injection h2 with h2; rw [← h2]
    · cases hv : firstValue (jget resp "balanceSMS") with
      | none => rw [hv] at h2; cases h2
      | some v => rw [hv] at h2; injection h2 with h2; rw [← h2]
  split at h3
  · rename_i hnil
    have hv : firstValue (jget resp "balanceData") = none := by
      cases hj : jget resp "balanceData" <;> simp_all [JSON.isNil, firstValue, JSON.asSlice]
    injection h3 with h3
    rw [hv, ← h3, e2, e1]
  · cases hv : firstValue (jget resp "balanceData") with
    | none => rw [hv] at h3; cases h3
    | some v =>
      rw [hv] at h3
      injection h3 with h3
      rw [← h3]
      rfl

theorem readAccumulators_some (vs : List JSON) (g g2 : F64)
    (h : readAccumulators vs g = some g2) :
    g2 = ((specVyoungRest vs).map fun rest => rest / F64.ofNat (2 ^ 20)).getD g := by
  induction vs generalizing g with
  | nil =>
    simp only [readAccumulators] at h
    injection h with h
    simp [specVyoungRest, h]
  | cons v vs ih =>
    unfold readAccumulators at h
    cases hm : v.asMap with
    | none => simp only [hm] at h; cases h
    | some tmp =>
      simp only [hm] at h
      by_cases hs : (jget tmp "soc").asString = some "VYOUNG"
      · simp only [hs, if_true] at h
        cases hr : (jget tmp "rest").asFloat with
        | none => simp only [hr] at h; cases h
        | some rest =>
          simp only [hr] at h
          have := ih _ h
          unfold specVyoungRest
          cases hv : specVyoungRest vs with
          | some r => simp only [hv] at this ⊢; exact this
          | none =>
            simp only [hv, hm, hs, if_true, hr] at this ⊢
            rw [this]
            simp only [Option.map_none', Option.getD_none, Option.map_some', Option.getD_some]
            rfl
      · simp only [hs, if_false] at h
        have := ih _ h
        unfold specVyoungRest
        cases hv : specVyoungRest vs with
        | some r => simp only [hv] at this ⊢; exact this
        | none => simp only [hv, hm, hs, if_false] at this ⊢; exact this

theorem getPlanCounters_done {up : Upstream} {params : List (String × String)}
    {res res3 : Summary} {w w3 : World}
    (h : getPlanCounters up params res w = .done res3 w3) :
    res3 = { res with Gigabytes := (specOverride up params w).getD res.Gigabytes } ∧
      (w3 = w.record ⟨"info/pricePlan", params⟩ ∨
        w3 = (w.record ⟨"info/pricePlan", params⟩).record ⟨"info/accumulators", params⟩) := by
  unfold getPlanCounters at h
  unfold specOverride
  rcases apiGet_shape up "info/pricePlan" params w with ⟨plan, e, h1⟩ | h1
  · cases e with
    | some err =>
      simp only [h1] at h ⊢
      injection h with ha hw
      subst ha hw
      exact ⟨rfl, Or.inl rfl⟩
    | none =>
      simp only [h1] at h ⊢
      cases hn : planName plan with
      | none => simp only [hn] at h; cases h
      | some name =>
        simp only [hn] at h
        by_cases hv : name = "VYOUNG"
        · subst hv
          simp only [if_true] at h ⊢
          rcases apiGet_shape up "info/accumulators" params
              (w.record ⟨"info/pricePlan", params⟩) with ⟨acc, e4, h4⟩ | h4
          · cases e4 with
            | some err =>
              simp only [h4] at h ⊢
              injection h with ha hw
              subst ha hw
              exact ⟨rfl, Or.inr rfl⟩
            | none =>
              simp only [h4] at h ⊢
              cases hsl : (jget acc "accumulators").asSlice with
              | none => simp only [hsl] at h; cases h
              | some vs =>
                simp only [hsl] at h
                cases hra : readAccumulators vs res.Gigabytes with
                | none => simp only [hra] at h; cases h
                | some g =>
                  simp only [hra] at h
                  injection h with ha hw
                  subst ha hw
                  refine ⟨?_, Or.inr rfl⟩
                  rw [readAccumulators_some vs _ _ hra]
                  simp only [Option.getD_some]
          · simp only [h4] at h
            cases h
        · have hv2 : ¬ (some name = some "VYOUNG") := fun e => hv (Option.some.inj e)
          simp only [hv, hv2, if_false] at h ⊢
          injection h with ha hw
          subst ha hw
          exact ⟨rfl, Or.inl rfl⟩
  · simp only [h1] at h
    cases h

theorem getPlanCounters_of_failure {up : Upstream} {params : List (String × String)}
    {res : Summary} {w w1 : World} {resp : JObj} {err : Err}
    (h : apiGet up "info/pricePlan" params w = .done (resp, some err) w1) :
    getPlanCounters up params res w = .done res w1 := by
  simp only [getPlanCounters, h]

theorem getBalance_of_failure {up : Upstream} {params : List (String × String)}
    {res : Summary} {w w1 : World} {resp : JObj} {err : Err}
    (h : apiGet up "info/prepaidBalance" params w = .done (resp, some err) w1) :
    getBalance up params res w =
      .done ({ res with Gigabytes := goRound (res.Gigabytes * 100) / 100 }, some err) w1 := by
  simp only [getBalance, h]

theorem getBalance_of_success {up : Upstream} {params : List (String × String)}
    {res : Summary} {w w1 : World} {resp : JObj} {b : F64}
    (h : apiGet up "info/prepaidBalance" params w = .done (resp, none) w1)
    (hb : jget resp "balance" = .num b) :
    getBalance up params res w =
      .done ({ res with Gigabytes := goRound (res.Gigabytes * 100) / 100, Balance := b },
        none) w1 := by
  simp only [getBalance, h, hb, JSON.asFloat]

theorem getBalance_done {up : Upstream} {params : List (String × String)}
    {res r : Summary} {e : Option Err} {w w1 : World}
    (h : getBalance up params res w = .done (r, e) w1) :
    r.Gigabytes = goRound (res.Gigabytes * 100) / 100 ∧
      ∃ resp, apiGet up "info/prepaidBalance" params w = .done (resp, e) w1 := by
  unfold getBalance at h
  rcases apiGet_shape up "info/prepaidBalance" params w with ⟨resp, e1, h1⟩ | h1
  · cases e1 with
    | some err =>
      simp only [h1] at h
      injection h with ha hw
      injection ha with hr he
      subst hr he hw
      exact ⟨rfl, resp, h1⟩
    | none =>
      simp only [h1] at h
      cases hb : (jget resp "balance").asFloat with
      | none => simp only [hb] at h; cases h
      | some b =>
        simp only [hb] at h
        injection h with ha hw
        injection ha with hr he
        subst hr he hw
        exact ⟨rfl, resp, h1⟩
  · simp only [h1] at h
    cases h

theorem getMetrics_done {up : Upstream} {acc : Account} {res r : Summary} {resp : JObj}
    {e : Option Err} {w w4 : World}
    (h : getMetrics up acc res resp w = .done (r, e) w4) :
    ∃ st res2 w2 res3 w3, jget resp "status" = .str st ∧
      getCounters up (ctnParams acc) { res with Status := st } w = .done res2 w2 ∧
      getPlanCounters up (ctnParams acc) res2 w2 = .done res3 w3 ∧
      getBalance up (ctnParams acc) res3 w3 = .done (r, e) w4 := by
  unfold getMetrics at h
  cases hs : (jget resp "status").asString with
  | none => simp only [hs] at h; cases h
  | some st =>
    simp only [hs] at h
    cases hc : getCounters up (ctnParams acc) { res with Status := st } w with
    | panic _ => simp only [hc] at h; cases h
    | outOfFuel _ => simp only [hc] at h; cases h
    | done res2 w2 =>
      simp only [hc] at h
      cases hp : getPlanCounters up (ctnParams acc) res2 w2 with
      | panic _ => simp only [hp] at h; cases h
      | outOfFuel _ => simp only [hp] at h; cases h
      | done res3 w3 =>
        simp only [hp] at h
        exact ⟨st, res2, w2, res3, w3, asString_eq_some.mp hs, hc, hp, h⟩

theorem getMetrics_of_stages {up : Upstream} {acc : Account} {res res2 res3 : Summary}
    {resp : JObj} {st : String} {w w2 w3 : World}
    (hs : jget resp "status" = .str st)
    (hc : getCounters up (ctnParams acc) { res with Status := st } w = .done res2 w2)
    (hp : getPlanCounters up (ctnParams acc) res2 w2 = .done res3 w3) :
    getMetrics up acc res resp w = getBalance up (ctnParams acc) res3 w3 := by
  simp only [getMetrics, hs, JSON.asString, hc, hp]

theorem goRound_zero : goRound ((0 : F64) * 100) / 100 = 0 := by
  with_unfolding_all rfl

theorem getPlanCounters_of_accumulators_failure {up : Upstream}
    {params : List (String × String)} {res : Summary} {w w1 w2 : World} {plan resp : JObj}
    {err : Err}
    (hp : apiGet up "info/pricePlan" params w = .done (plan, none) w1)
    (hn : planName plan = some "VYOUNG")
    (ha : apiGet up "info/accumulators" params w1 = .done (resp, some err) w2) :
    getPlanCounters up params res w = .done res w2 := by
  simp only [getPlanCounters, hp, hn, if_true, ha]

theorem hundred_eq : (100 : F64) = .finite false 100 := by
  with_unfolding_all rfl

/-- Line 262 on a finite product: the quotient is the binary64 value nearest to
a whole number of hundredths. -/
theorem goRound_div_hundred (s : Bool) (m : ℚ) :
    goRound (.finite s m) / 100 = F64.ofMag s (((⌊m + 1 / 2⌋ : Int) : ℚ) / 100) := by
  rw [hundred_eq]
  show F64.div (goRound (.finite s m)) (.finite false 100) = _
  simp [goRound, F64.div]

theorem getCounters_gigabytes {up : Upstream} {params : List (String × String)}
    {res res2 : Summary} {w w2 : World}
    (hg : res.Gigabytes = 0)
    (h : getCounters up params res w = .done res2 w2) :
    res2.Gigabytes = specPrimary up params w := by
  obtain ⟨_, resp, e, hcall, hcase⟩ := getCounters_done h
  unfold specPrimary
  rcases hcase with ⟨⟨err, he⟩, hres⟩ | ⟨he, hread⟩
  · subst he
    simp only [hcall, hres, hg]
  · subst he
    simp only [hcall]
    rw [readCounters_gigabytes hread, hg]

/-! ## Traces -/

theorem extends_refl (w : World) : Extends w w := ⟨[], by simp⟩

theorem extends_trans {w w2 w3 : World} (h1 : Extends w w2) (h2 : Extends w2 w3) :
    Extends w w3 := by
  obtain ⟨r1, e1⟩ := h1
  obtain ⟨r2, e2⟩ := h2
  exact ⟨r1 ++ r2, by rw [e2, e1, List.append_assoc]⟩

theorem extends_record (w : World) (req : Request) : Extends w (w.record req) :=
  ⟨[req], rfl⟩

theorem apiGet_world (up : Upstream) (endpoint : String) (params : List (String × String))
    (w : World) : (apiGet up endpoint params w).world = w.record ⟨endpoint, params⟩ := by
  rcases apiGet_shape up endpoint params w with ⟨res, err, h⟩ | h <;> rw [h] <;> rfl

theorem updateToken_world_trace (up : Upstream) (accName : String) (w : World) :
    (updateToken up accName w).world.trace = w.trace ++ [authRequest (w.CFG.account accName)] := by
  unfold updateToken authRequest
  rcases apiGet_shape up "auth" [("login", toString (w.CFG.account accName).Login),
      ("password", (w.CFG.account accName).Password)] w with ⟨res, err, h⟩ | h
  · cases err with
    | some e => simp only [h]; rfl
    | none =>
      simp only [h]
      cases (jget res "token").asString with
      | none => rfl
      | some t =>
        cases hm : (w.record ⟨"auth", [("login", toString (w.CFG.account accName).Login),
            ("password", (w.CFG.account accName).Password)]⟩).CFG.Accounts with
        | none => simp only [hm]; rfl
        | some m => simp only [hm]; rfl
  · simp only [h]; rfl

theorem updateToken_done_none {up : Upstream} {accName : String} {w w1 : World}
    (h : updateToken up accName w = .done none w1) :
    ∃ t, w1.CFG.account accName = { w.CFG.account accName with Token := t } := by
  unfold updateToken at h
  rcases apiGet_shape up "auth" [("login", toString (w.CFG.account accName).Login),
      ("password", (w.CFG.account accName).Password)] w with ⟨res, err, h1⟩ | h1
  · cases err with
    | some e =>
      simp only [h1] at h
      injection h with ha _
      cases ha
    | none =>
      simp only [h1] at h
      cases ht : (jget res "token").asString with
      | none => simp only [ht] at h; cases h
      | some t =>
        simp only [ht] at h
        cases hm : (w.record ⟨"auth", [("login", toString (w.CFG.account accName).Login),
            ("password", (w.CFG.account accName).Password)]⟩).CFG.Accounts with
        | none => simp only [hm] at h; cases h
        | some m =>
          simp only [hm] at h
          injection h with _ hw
          refine ⟨t, ?_⟩
          rw [← hw]
          simp only [Config.account, lookup_mapAssign_self, Option.getD_some]
  · simp only [h1] at h
    cases h

theorem updateToken_extends (up : Upstream) (accName : String) (w : World) :
    Extends w (updateToken up accName w).world :=
  ⟨_, updateToken_world_trace up accName w⟩

theorem checkToken_extends (up : Upstream) (accName : String) (w : World) :
    Extends w (checkToken up accName w).world := by
  unfold checkToken
  by_cases hTok : (w.CFG.account accName).Token = ""
  · simp only [hTok, if_true]
    have h := updateToken_extends up accName w
    cases hu : updateToken up accName w with
    | panic w1 => rw [hu] at h; exact h
    | outOfFuel w1 => rw [hu] at h; exact h
    | done e w1 =>
      rw [hu] at h
      cases e <;> exact h
  · simp only [hTok, if_false]
    exact extends_refl w

theorem getCounters_extends (up : Upstream) (params : List (String × String)) (res : Summary)
    (w : World) : Extends w (getCounters up params res w).world := by
  unfold getCounters
  rcases apiGet_shape up "info/prepaidAddBalance" params w with ⟨resp, e, h⟩ | h
  · cases e with
    | some err => simp only [h]; exact extends_record _ _
    | none =>
      simp only [h]
      cases readCounters resp res <;> exact extends_record _ _
  · simp only [h]; exact extends_record _ _

theorem getPlanCounters_extends (up : Upstream) (params : List (String × String))
    (res : Summary) (w : World) : Extends w (getPlanCounters up params res w).world := by
  unfold getPlanCounters
  rcases apiGet_shape up "info/pricePlan" params w with ⟨plan, e, h⟩ | h
  · cases e with
    | some err => simp only [h]; exact extends_record _ _
    | none =>
      simp only [h]
      cases planName plan with
      | none => exact extends_record _ _
      | some name =>
        by_cases hv : name = "VYOUNG"
        · simp only [hv, if_true]
          have h2 : Extends w ((w.record ⟨"info/pricePlan", params⟩).record
              ⟨"info/accumulators", params⟩) :=
            extends_trans (extends_record _ _) (extends_record _ _)
          rcases apiGet_shape up "info/accumulators" params
              (w.record ⟨"info/pricePlan", params⟩) with ⟨acc, e4, h4⟩ | h4
          · cases e4 with
            | some err => simp only [h4]; exact h2
            | none =>
              simp only [h4]
              cases (jget acc "accumulators").asSlice with
              | none => exact h2
              | some vs =>
                simp only
                cases readAccumulators vs res.Gigabytes <;> exact h2
          · simp only [h4]; exact h2
        · simp only [hv, if_false]; exact extends_record _ _
  · simp only [h]; exact extends_record _ _

theorem getBalance_extends (up : Upstream) (params : List (String × String)) (res : Summary)
    (w : World) : Extends w (getBalance up params res w).world := by
  unfold getBalance
  rcases apiGet_shape up "info/prepaidBalance" params w with ⟨resp, e, h⟩ | h
  · cases e with
    | some err => simp only [h]; exact extends_record _ _
    | none =>
      simp only [h]
      cases (jget resp "balance").asFloat <;> exact extends_record _ _
  · simp only [h]; exact extends_record _ _

theorem getMetrics_extends (up : Upstream) (acc : Account) (res : Summary) (resp : JObj)
    (w : World) : Extends w (getMetrics up acc res resp w).world := by
  unfold getMetrics
  cases (jget resp "status").asString with
  | none => exact extends_refl w
  | some st =>
    simp only
    have h1 := getCounters_extends up (ctnParams acc) { res with Status := st } w
    cases hc : getCounters up (ctnParams acc) { res with Status := st } w with
    | panic w1 => rw [hc] at h1; exact h1
    | outOfFuel w1 => rw [hc] at h1; exact h1
    | done res2 w2 =>
      rw [hc] at h1
      simp only
      have h2 := getPlanCounters_extends up (ctnParams acc) res2 w2
      cases hp : getPlanCounters up (ctnParams acc) res2 w2 with
      | panic w3 => rw [hp] at h2; exact extends_trans h1 h2
      | outOfFuel w3 => rw [hp] at h2; exact extends_trans h1 h2
      | done res3 w3 =>
        rw [hp] at h2
        exact extends_trans h1 (extends_trans h2 (getBalance_extends up (ctnParams acc) res3 w3))

/-- One unfolding of `getSummary` after the token check: the status call comes
next and everything else follows it. -/
theorem getSummary_after_check_step {up : Upstream} {accName : String} {fuel : Nat}
    (ih : ∀ w, Extends w (getSummary up fuel accName w).world)
    {w w1 : World} {acc : Account}
    (hCheck : checkToken up accName w = .done (acc, none) w1) :
    ∃ rest, (getSummary up (fuel + 1) accName w).world.trace =
      w1.trace ++ ⟨"info/status", ctnParams acc⟩ :: rest := by
  have key : ∀ {wf : World}, Extends (w1.record ⟨"info/status", ctnParams acc⟩) wf →
      ∃ rest, wf.trace = w1.trace ++ ⟨"info/status", ctnParams acc⟩ :: rest := by
    rintro wf ⟨rest, hr⟩
    exact ⟨rest, by rw [hr]; simp [World.record]⟩
  rcases apiGet_shape up "info/status" (ctnParams acc) w1 with ⟨resp, e, h⟩ | h
  · cases e with
    | none =>
      rw [getSummary_of_status_ok fuel hCheck h]
      exact key (getMetrics_extends up acc _ resp _)
    | some err =>
      by_cases hErr : err = "TOKEN_NOT_FOUND" ∨ err = "TOKEN_EXPIRED"
      · rw [getSummary_of_expired fuel hCheck h hErr]
        have hu := updateToken_extends up accName (w1.record ⟨"info/status", ctnParams acc⟩)
        cases hupd : updateToken up accName (w1.record ⟨"info/status", ctnParams acc⟩) with
        | panic w3 => rw [hupd] at hu; exact key hu
        | outOfFuel w3 => rw [hupd] at hu; exact key hu
        | done e3 w3 =>
          rw [hupd] at hu
          cases e3 with
          | some err3 => exact key hu
          | none => exact key (extends_trans hu (ih w3))
      · rw [getSummary_of_status_err fuel hCheck h (fun e => hErr (Or.inl e))
          (fun e => hErr (Or.inr e))]
        exact key (extends_refl _)
  · simp only [getSummary, hCheck, h]
    exact key (extends_refl _)

theorem getSummary_extends (up : Upstream) (accName : String) (fuel : Nat) :
    ∀ w, Extends w (getSummary up fuel accName w).world := by
  induction fuel with
  | zero => intro w; exact extends_refl w
  | succ fuel ih =>
    intro w
    have hc := checkToken_extends up accName w
    cases hck : checkToken up accName w with
    | panic w1 => rw [hck] at hc; simp only [getSummary, hck]; exact hc
    | outOfFuel w1 => rw [hck] at hc; simp only [getSummary, hck]; exact hc
    | done r w1 =>
      rw [hck] at hc
      obtain ⟨acc, e⟩ := r
      cases e with
      | some err => simp only [getSummary, hck]; exact hc
      | none =>
        obtain ⟨rest, hr⟩ := getSummary_after_check_step ih hck
        exact extends_trans hc ⟨_, hr⟩

theorem checkToken_empty (up : Upstream) (accName : String) (w : World)
    (hTok : (w.CFG.account accName).Token = "") :
    checkToken up accName w =
      match updateToken up accName w with
      | .panic w1 => .panic w1
      | .outOfFuel w1 => .outOfFuel w1
      | .done (some err) w1 => .done (w.CFG.account accName, some err) w1
      | .done none w1 => .done (w1.CFG.account accName, none) w1 := by
  unfold checkToken
  dsimp only
  rw [if_pos hTok]

/-- With an upstream that accepts every `auth` call, `updateToken` succeeds on
a non-nil store and leaves a non-nil store. -/
theorem updateToken_accepting {up : Upstream} (accName : String)
    (hAuth : ∀ w p, ∃ r t, apiGet up "auth" p w = .done (r, none) (w.record ⟨"auth", p⟩) ∧
      jget r "token" = .str t)
    (w : World) (hMap : w.CFG.Accounts ≠ none) :
    ∃ w2, updateToken up accName w = .done none w2 ∧ w2.CFG.Accounts ≠ none := by
  obtain ⟨r, t, hcall, htok⟩ := hAuth w [("login", toString (w.CFG.account accName).Login),
    ("password", (w.CFG.account accName).Password)]
  cases hm : w.CFG.Accounts with
  | none => exact absurd hm hMap
  | some m =>
    refine ⟨_, updateToken_success hm hcall htok, ?_⟩
    simp

/-- With an upstream that rejects every status call with `TOKEN_EXPIRED` and
accepts every `auth` call, no recursion budget is enough for `getSummary`. -/
theorem getSummary_diverges (up : Upstream) (accName : String)
    (hStatus : ∀ w p, ∃ r, apiGet up "info/status" p w =
      .done (r, some "TOKEN_EXPIRED") (w.record ⟨"info/status", p⟩))
    (hAuth : ∀ w p, ∃ r t, apiGet up "auth" p w = .done (r, none) (w.record ⟨"auth", p⟩) ∧
      jget r "token" = .str t) :
    ∀ fuel w, w.CFG.Accounts ≠ none → ∃ w2, getSummary up fuel accName w = .outOfFuel w2 := by
  intro fuel
  induction fuel with
  | zero => intro w _; exact ⟨w, rfl⟩
  | succ fuel ih =>
    intro w hMap
    have hck : ∃ acc w0, checkToken up accName w = .done (acc, none) w0 ∧
        w0.CFG.Accounts ≠ none := by
      by_cases hTok : (w.CFG.account accName).Token = ""
      · obtain ⟨w0, hu, hm0⟩ := updateToken_accepting accName hAuth w hMap
        refine ⟨w0.CFG.account accName, w0, ?_, hm0⟩
        rw [checkToken_empty up accName w hTok, hu]
      · exact ⟨_, w, checkToken_nonempty up accName w hTok, hMap⟩
    obtain ⟨acc, w0, hcheck, hm0⟩ := hck
    obtain ⟨r, hst⟩ := hStatus w0 (ctnParams acc)
    have hm1 : (w0.record ⟨"info/status", ctnParams acc⟩).CFG.Accounts ≠ none := hm0
    obtain ⟨w2, hu, hm2⟩ := updateToken_accepting accName hAuth _ hm1
    rw [getSummary_of_expired fuel hcheck hst (Or.inr rfl), hu]
    exact ih w2 hm2

/-! ## `apiGet` -/

/-- C8 (amended): when the upstream answers with HTTP status 200 and a decoded
body whose `meta` field is an object, `apiGet` returns the body with a nil error
if `meta.status` is the string `"OK"`, it returns a nil error only in that case,
and otherwise, `meta.message` being a string, it returns an error whose message
is that string verbatim. -/
theorem apiGet_status_200 (up : Upstream) (endpoint : String) (params : List (String × String))
    (w : World) (res meta : JObj)
    (hResp : up w.trace ⟨endpoint, params⟩ = .response 200 (some res))
    (hMeta : jget res "meta" = .obj meta) :
    (jget meta "status" = .str "OK" →
        apiGet up endpoint params w = .done (res, none) (w.record ⟨endpoint, params⟩)) ∧
    ((∃ r w1, apiGet up endpoint params w = .done (r, none) w1) →
        jget meta "status" = .str "OK") ∧
    (∀ message, jget meta "status" ≠ .str "OK" → jget meta "message" = .str message →
        apiGet up endpoint params w = .done (res, some message) (w.record ⟨endpoint, params⟩)) := by
  have hbase : apiGet up endpoint params w =
      if (jget meta "status").asString ≠ some "OK" then
        match (jget meta "message").asString with
        | none => .panic (w.record ⟨endpoint, params⟩)
        | some message => .done (res, some message) (w.record ⟨endpoint, params⟩)
      else .done (res, none) (w.record ⟨endpoint, params⟩) := by
    unfold apiGet
    simp only [hResp, hMeta, JSON.asMap, if_true]
  refine ⟨?_, ?_, ?_⟩
  · intro hs
    rw [hbase]
    simp [asString_eq_some.mpr hs]
  · rintro ⟨r, w1, h⟩
    by_contra hs
    have hs2 : (jget meta "status").asString ≠ some "OK" := fun e => hs (asString_eq_some.mp e)
    rw [hbase, if_pos hs2] at h
    cases hm : (jget meta "message").asString with
    | none => rw [hm] at h; cases h
    | some message =>
      rw [hm] at h
      injection h with h1 _
      injection h1 with _ h2
      cases h2
  · intro message hs hm
    have hs2 : (jget meta "status").asString ≠ some "OK" := fun e => hs (asString_eq_some.mp e)
    rw [hbase, if_pos hs2, asString_eq_some.mpr hm]

/-- Witness of C8 (amended): the `OK` envelope of `upDemo` is accepted and the
`TOKEN_EXPIRED` envelope of `upRejecting` becomes the error `TOKEN_EXPIRED`. -/
theorem apiGet_status_200_witness :
    apiGet upDemo "info/status" [] worldDemo =
        .done (envelope "OK" 20000 "OK" [("status", .str "ACTIVE")], none)
          (worldDemo.record ⟨"info/status", []⟩) ∧
      apiGet upRejecting "info/status" [] worldDemo =
        .done (envelope "ERROR" 20002 "TOKEN_EXPIRED" [], some "TOKEN_EXPIRED")
          (worldDemo.record ⟨"info/status", []⟩) :=
  ⟨(apiGet_status_200 upDemo "info/status" [] worldDemo
      (envelope "OK" 20000 "OK" [("status", .str "ACTIVE")])
      [("status", .str "OK"), ("code", .num 20000), ("message", .str "OK")] rfl rfl).1 rfl,
   (apiGet_status_200 upRejecting "info/status" [] worldDemo
      (envelope "ERROR" 20002 "TOKEN_EXPIRED" [])
      [("status", .str "ERROR"), ("code", .num 20002), ("message", .str "TOKEN_EXPIRED")]
      rfl rfl).2.2 "TOKEN_EXPIRED"
      (fun h => by
        have h2 : JSON.asString (jget [("status", JSON.str "ERROR"), ("code", .num 20002),
            ("message", .str "TOKEN_EXPIRED")] "status") = some "OK" := asString_eq_some.mpr h
        exact absurd h2 (by decide)) rfl⟩

/-- C8 (as stated) fails: HTTP status 201 is a 2xx status and the envelope says
`"OK"`, yet `apiGet` returns the error `"201"`. -/
theorem apiGet_2xx_counterexample :
    (200 ≤ (201 : Int) ∧ (201 : Int) < 300) ∧
      upCreated worldDemo.trace ⟨"info/status", []⟩ =
        .response 201 (some (envelope "OK" 20000 "OK" [])) ∧
      jget [("status", JSON.str "OK"), ("code", .num 20000), ("message", .str "OK")] "status" =
        .str "OK" ∧
      apiGet upCreated "info/status" [] worldDemo =
        .done (envelope "OK" 20000 "OK" [], some "201") (worldDemo.record ⟨"info/status", []⟩) :=
  ⟨by decide, rfl, rfl, rfl⟩

/-! ## `updateToken` -/

/-- The store entries after a successful `updateToken`. -/
theorem updateToken_store {up : Upstream} {accName : String} {w w1 : World} {res : JObj}
    {t : String} {m : List (String × Account)}
    (hm : w.CFG.Accounts = some m)
    (hcall : apiGet up "auth" [("login", toString (w.CFG.account accName).Login),
      ("password", (w.CFG.account accName).Password)] w = .done (res, none) w1)
    (htok : jget res "token" = .str t) :
    ∃ w2 m2, updateToken up accName w = .done none w2 ∧ w2.CFG.Accounts = some m2 ∧
      w2.trace = w1.trace ∧
      m2.lookup accName = some { w.CFG.account accName with Token := t } ∧
      (∀ k, k ≠ accName → m2.lookup k = m.lookup k) :=
  ⟨_, _, updateToken_success hm hcall htok, rfl, rfl, lookup_mapAssign_self _ _ _,
    fun k hk => lookup_mapAssign_other m accName k _ hk⟩

/-- C10: for a key present in the store, a successful `auth` call carrying the
string token `t` makes `updateToken` return nil and leaves a store whose entry
for the key, and so the read `CFG.Accounts[accName]`, has `Token = t` with the
old `Login` and `Password`, every other key reading as before; a failed `auth` call makes `updateToken` return that
error with `CFG` unchanged. -/
theorem updateToken_existing_key (up : Upstream) (accName : String) (w : World)
    (m : List (String × Account)) (acc : Account)
    (hMap : w.CFG.Accounts = some m) (hKey : m.lookup accName = some acc) :
    (∀ res w1 t,
        apiGet up "auth" [("login", toString acc.Login), ("password", acc.Password)] w =
          .done (res, none) w1 →
        jget res "token" = .str t →
        ∃ w2 m2, updateToken up accName w = .done none w2 ∧ w2.CFG.Accounts = some m2 ∧
          m2.lookup accName =
            some { Login := acc.Login, Password := acc.Password, Token := t } ∧
          w2.CFG.account accName =
            { Login := acc.Login, Password := acc.Password, Token := t } ∧
          (∀ k, k ≠ accName → m2.lookup k = m.lookup k)) ∧
    (∀ res w1 err,
        apiGet up "auth" [("login", toString acc.Login), ("password", acc.Password)] w =
          .done (res, some err) w1 →
        updateToken up accName w = .done (some err) w1 ∧ w1.CFG = w.CFG) := by
  have hacc : w.CFG.account accName = acc := account_of_lookup hMap hKey
  constructor
  · intro res w1 t hcall htok
    rw [← hacc] at hcall
    obtain ⟨w2, m2, h1, h2, _, h3, h4⟩ := updateToken_store hMap hcall htok
    rw [hacc] at h3
    exact ⟨w2, m2, h1, h2, h3, account_of_lookup h2 h3, h4⟩
  · intro res w1 err hcall
    have hw := apiGet_done_world hcall
    rw [← hacc] at hcall
    exact ⟨updateToken_failure hcall, by rw [hw]; rfl⟩

/-- Witness of C10: refreshing `home` in `worldDemo` against `upDemo` stores the
token `T1`; against the unreachable `upDown` the error comes back and `CFG`
stays. -/
theorem updateToken_existing_key_witness :
    (∃ w2 m2, updateToken upDemo "home" worldDemo = .done none w2 ∧
        w2.CFG.Accounts = some m2 ∧
        m2.lookup "home" = some { Login := 9031234567, Password := "pw", Token := "T1" } ∧
        w2.CFG.account "home" = { Login := 9031234567, Password := "pw", Token := "T1" } ∧
        (∀ k, k ≠ "home" →
          m2.lookup k = [("home", ({ Login := 9031234567, Password := "pw", Token := "T0" } :
            Account))].lookup k)) ∧
      (updateToken upDown "home" worldDemo =
          .done (some "API request failed")
            (worldDemo.record ⟨"auth", [("login", "9031234567"), ("password", "pw")]⟩) ∧
        (worldDemo.record ⟨"auth", [("login", "9031234567"), ("password", "pw")]⟩).CFG =
          worldDemo.CFG) :=
  ⟨(updateToken_existing_key upDemo "home" worldDemo _ _ rfl rfl).1
      (envelope "OK" 20000 "OK" [("token", .str "T1")]) _ "T1" rfl rfl,
   (updateToken_existing_key upDown "home" worldDemo _ _ rfl rfl).2 [] _ _ rfl⟩

/-- C9 (amended): for a key absent from a non-nil store, `updateToken` reads the
zero account and calls `auth` with login `0` and an empty password; when that
call fails it returns the error and leaves `CFG` unchanged; when it succeeds
with the string token `t` it returns nil and the store gains the entry
`{Login: 0, Password: "", Token: t}` for the key, every other key reading as
before. -/
theorem updateToken_absent_key (up : Upstream) (accName : String) (w : World)
    (m : List (String × Account))
    (hMap : w.CFG.Accounts = some m) (hAbsent : m.lookup accName = none) :
    (∀ res w1 err,
        apiGet up "auth" [("login", "0"), ("password", "")] w = .done (res, some err) w1 →
        updateToken up accName w = .done (some err) w1 ∧ w1.CFG = w.CFG) ∧
    (∀ res w1 t,
        apiGet up "auth" [("login", "0"), ("password", "")] w = .done (res, none) w1 →
        jget res "token" = .str t →
        ∃ w2 m2, updateToken up accName w = .done none w2 ∧ w2.CFG.Accounts = some m2 ∧
          m2.lookup accName = some { Login := 0, Password := "", Token := t } ∧
          (∀ k, k ≠ accName → m2.lookup k = m.lookup k)) := by
  have hacc : w.CFG.account accName = {} := account_of_absent hMap hAbsent
  have hparams : [("login", toString (w.CFG.account accName).Login),
      ("password", (w.CFG.account accName).Password)] = [("login", "0"), ("password", "")] := by
    rw [hacc]; rfl
  constructor
  · intro res w1 err hcall
    have hw := apiGet_done_world hcall
    rw [← hparams] at hcall
    exact ⟨updateToken_failure hcall, by rw [hw]; rfl⟩
  · intro res w1 t hcall htok
    rw [← hparams] at hcall
    obtain ⟨w2, m2, h1, h2, _, h3, h4⟩ := updateToken_store hMap hcall htok
    rw [hacc] at h3
    exact ⟨w2, m2, h1, h2, h3, h4⟩

/-- Witness of C9 (amended): the key `ghost` is absent from `worldDemo`. -/
theorem updateToken_absent_key_witness :
    (updateToken upDown "ghost" worldDemo =
        .done (some "API request failed")
          (worldDemo.record ⟨"auth", [("login", "0"), ("password", "")]⟩) ∧
      (worldDemo.record ⟨"auth", [("login", "0"), ("password", "")]⟩).CFG = worldDemo.CFG) ∧
    (∃ w2 m2, updateToken upDemo "ghost" worldDemo = .done none w2 ∧
        w2.CFG.Accounts = some m2 ∧
        m2.lookup "ghost" = some { Login := 0, Password := "", Token := "T1" } ∧
        (∀ k, k ≠ "ghost" →
          m2.lookup k = [("home", ({ Login := 9031234567, Password := "pw", Token := "T0" } :
            Account))].lookup k)) :=
  ⟨(updateToken_absent_key upDown "ghost" worldDemo _ rfl rfl).1 [] _ _ rfl,
   (updateToken_absent_key upDemo "ghost" worldDemo _ rfl rfl).2
      (envelope "OK" 20000 "OK" [("token", .str "T1")]) _ "T1" rfl rfl⟩

/-- C9 (as stated) fails: the key `ghost` is absent from the empty store, the
upstream accepts the `auth` call, and `updateToken` returns nil having created
an entry for `ghost`. -/
theorem updateToken_absent_counterexample :
    worldEmpty.CFG.Accounts = some [] ∧
      updateToken upDemo "ghost" worldEmpty =
        .done none
          { CFG := { Accounts := some [("ghost", { Login := 0, Password := "", Token := "T1" })] },
            trace := [⟨"auth", [("login", "0"), ("password", "")]⟩] } :=
  ⟨rfl, rfl⟩

/-! ## `getSummary` -/

/-- C4: for an account with a non-empty token, when the status call fails with
an error whose message is neither `TOKEN_NOT_FOUND` nor `TOKEN_EXPIRED`,
`getSummary` returns that error with a Summary whose `Status` is empty and whose
`Gigabytes`, `Minutes`, `SMS` and `Balance` are zero; the status call is the
only call issued and `CFG` is unchanged. -/
theorem getSummary_status_failure (up : Upstream) (accName : String) (w w1 : World)
    (fuel : Nat) (resp : JObj) (err : Err)
    (hTok : (w.CFG.account accName).Token ≠ "")
    (hStatus : apiGet up "info/status" (ctnParams (w.CFG.account accName)) w =
      .done (resp, some err) w1)
    (hNotFound : err ≠ "TOKEN_NOT_FOUND") (hExpired : err ≠ "TOKEN_EXPIRED") :
    getSummary up (fuel + 1) accName w =
        .done ({ Name := accName, Number := (w.CFG.account accName).Login, Status := "",
                 Gigabytes := 0, Minutes := 0, SMS := 0, Balance := 0 }, some err) w1 ∧
      w1.trace = w.trace ++ [⟨"info/status", ctnParams (w.CFG.account accName)⟩] ∧
      w1.CFG = w.CFG := by
  have hw := apiGet_done_world hStatus
  refine ⟨getSummary_of_status_err fuel (checkToken_nonempty up accName w hTok) hStatus
    hNotFound hExpired, ?_, ?_⟩
  · rw [hw]; rfl
  · rw [hw]; rfl

/-- Witness of C4: the status call of `home` fails at the transport level. -/
theorem getSummary_status_failure_witness :
    getSummary upDown 1 "home" worldDemo =
        .done ({ Name := "home", Number := 9031234567, Status := "",
                 Gigabytes := 0, Minutes := 0, SMS := 0, Balance := 0 },
          some "API request failed")
          (worldDemo.record ⟨"info/status", [("ctn", "9031234567"), ("token", "T0")]⟩) ∧
      (worldDemo.record ⟨"info/status", [("ctn", "9031234567"), ("token", "T0")]⟩).trace =
        worldDemo.trace ++ [⟨"info/status", [("ctn", "9031234567"), ("token", "T0")]⟩] ∧
      (worldDemo.record ⟨"info/status", [("ctn", "9031234567"), ("token", "T0")]⟩).CFG =
        worldDemo.CFG :=
  getSummary_status_failure upDown "home" worldDemo _ 0 [] "API request failed"
    (by decide) rfl (by decide) (by decide)

/-- C1 (amended): for an account with a non-empty token whose status call
succeeds with a string status, when the `prepaidAddBalance` call fails, the
`pricePlan` stage returns and the `prepaidBalance` call succeeds with the
number `b`, `getSummary` returns a nil error and a Summary with `Minutes = 0`,
`SMS = 0`, `Balance = b` and `Gigabytes` the rounded accumulator override of the
plan `VYOUNG` when there is one, and 0 when there is none. -/
theorem getSummary_counters_failed (up : Upstream) (accName : String) (w w1 w2 w3 w4 : World)
    (fuel : Nat) (resp r2 rb : JObj) (st : String) (e2 : Err) (res3 : Summary) (b : F64)
    (hTok : (w.CFG.account accName).Token ≠ "")
    (hStatus : apiGet up "info/status" (ctnParams (w.CFG.account accName)) w =
      .done (resp, none) w1)
    (hStr : jget resp "status" = .str st)
    (hAdd : apiGet up "info/prepaidAddBalance" (ctnParams (w.CFG.account accName)) w1 =
      .done (r2, some e2) w2)
    (hPlan : getPlanCounters up (ctnParams (w.CFG.account accName))
      { Name := accName, Number := (w.CFG.account accName).Login, Status := st } w2 =
      .done res3 w3)
    (hBal : apiGet up "info/prepaidBalance" (ctnParams (w.CFG.account accName)) w3 =
      .done (rb, none) w4)
    (hB : jget rb "balance" = .num b) :
    getSummary up (fuel + 1) accName w =
        .done ({ Name := accName, Number := (w.CFG.account accName).Login, Status := st,
                 Gigabytes :=
                   goRound (((specOverride up (ctnParams (w.CFG.account accName)) w2).getD 0)
                     * 100) / 100,
                 Minutes := 0, SMS := 0, Balance := b }, none) w4 ∧
      (specOverride up (ctnParams (w.CFG.account accName)) w2 = none →
        getSummary up (fuel + 1) accName w =
          .done ({ Name := accName, Number := (w.CFG.account accName).Login, Status := st,
                   Gigabytes := 0, Minutes := 0, SMS := 0, Balance := b }, none) w4) := by
  have hmain : getSummary up (fuel + 1) accName w =
      .done ({ Name := accName, Number := (w.CFG.account accName).Login, Status := st,
               Gigabytes :=
                 goRound (((specOverride up (ctnParams (w.CFG.account accName)) w2).getD 0)
                   * 100) / 100,
               Minutes := 0, SMS := 0, Balance := b }, none) w4 := by
    rw [getSummary_of_status_ok fuel (checkToken_nonempty up accName w hTok) hStatus,
      getMetrics_of_stages hStr (getCounters_of_failure hAdd) hPlan,
      getBalance_of_success hBal hB, (getPlanCounters_done hPlan).1]
  refine ⟨hmain, fun hnone => ?_⟩
  rw [hmain, hnone]
  simp only [Option.getD_none, goRound_zero]

/-- Witness of C1 (amended): against `upPartial` only the status and the
`prepaidBalance` calls succeed, there is no override and `Gigabytes` is 0. -/
theorem getSummary_counters_failed_witness :
    getSummary upPartial 1 "home" worldDemo =
      .done ({ Name := "home", Number := 9031234567, Status := "ACTIVE",
               Gigabytes := 0, Minutes := 0, SMS := 0, Balance := 125 }, none)
        ((((worldDemo.record ⟨"info/status", [("ctn", "9031234567"), ("token", "T0")]⟩).record
          ⟨"info/prepaidAddBalance", [("ctn", "9031234567"), ("token", "T0")]⟩).record
          ⟨"info/pricePlan", [("ctn", "9031234567"), ("token", "T0")]⟩).record
          ⟨"info/prepaidBalance", [("ctn", "9031234567"), ("token", "T0")]⟩) :=
  (getSummary_counters_failed upPartial "home" worldDemo _ _ _ _ 0
    (envelope "OK" 20000 "OK" [("status", .str "ACTIVE")]) []
    (envelope "OK" 20000 "OK" [("balance", .num 125)]) "ACTIVE" "API request failed"
    _ 125 (by decide) rfl rfl rfl rfl rfl rfl).2 rfl

/-- C1 (as stated) fails: against `upVyoung` the status call succeeds, the
`prepaidAddBalance` call fails and the `prepaidBalance` call succeeds with 125,
yet the plan `VYOUNG` overrides `Gigabytes`, which is 2 and not 0. -/
theorem getSummary_counters_failed_counterexample :
    (worldDemo.CFG.account "home").Token ≠ "" ∧
      apiGet upVyoung "info/prepaidAddBalance" [("ctn", "9031234567"), ("token", "T0")]
          (worldDemo.record ⟨"info/status", [("ctn", "9031234567"), ("token", "T0")]⟩) =
        .done ([], some "API request failed")
          ((worldDemo.record ⟨"info/status", [("ctn", "9031234567"), ("token", "T0")]⟩).record
            ⟨"info/prepaidAddBalance", [("ctn", "9031234567"), ("token", "T0")]⟩) ∧
      getSummary upVyoung 1 "home" worldDemo =
        .done ({ Name := "home", Number := 9031234567, Status := "ACTIVE",
                 Gigabytes := 2, Minutes := 0, SMS := 0, Balance := 125 }, none)
          { CFG := worldDemo.CFG,
            trace := [⟨"info/status", [("ctn", "9031234567"), ("token", "T0")]⟩,
              ⟨"info/prepaidAddBalance", [("ctn", "9031234567"), ("token", "T0")]⟩,
              ⟨"info/pricePlan", [("ctn", "9031234567"), ("token", "T0")]⟩,
              ⟨"info/accumulators", [("ctn", "9031234567"), ("token", "T0")]⟩,
              ⟨"info/prepaidBalance", [("ctn", "9031234567"), ("token", "T0")]⟩] } ∧
      (2 : F64) ≠ 0 :=
  ⟨by decide, rfl, by with_unfolding_all rfl, by with_unfolding_all decide⟩

/-- C2: once the status call has succeeded, (1) whenever `getSummary` returns,
the error it returns is the error of a `prepaidBalance` call that was issued
last, after the `prepaidAddBalance` and `pricePlan` calls; (2) `getSummary` does
return, with the error of the `prepaidBalance` call, whenever the three stages
return; (3) a failed `prepaidAddBalance`, `pricePlan` or `accumulators` call
makes its stage return with the Summary unchanged and a failed
`prepaidBalance` call makes the last stage return that error. -/
theorem getSummary_returns_last_error (up : Upstream) (accName : String) (w w0 w1 : World)
    (fuel : Nat) (acc : Account) (resp : JObj)
    (hCheck : checkToken up accName w = .done (acc, none) w0)
    (hStatus : apiGet up "info/status" (ctnParams acc) w0 = .done (resp, none) w1) :
    (∀ res err w4, getSummary up (fuel + 1) accName w = .done (res, err) w4 →
        ∃ w3 rb mid,
          apiGet up "info/prepaidBalance" (ctnParams acc) w3 = .done (rb, err) w4 ∧
          w4.trace = w3.trace ++ [⟨"info/prepaidBalance", ctnParams acc⟩] ∧
          w3.trace = w1.trace ++ [⟨"info/prepaidAddBalance", ctnParams acc⟩,
            ⟨"info/pricePlan", ctnParams acc⟩] ++ mid) ∧
    (∀ st res2 w2 res3 w3 rb eb w4,
        jget resp "status" = .str st →
        getCounters up (ctnParams acc)
          { Name := accName, Number := (w.CFG.account accName).Login, Status := st } w1 =
          .done res2 w2 →
        getPlanCounters up (ctnParams acc) res2 w2 = .done res3 w3 →
        apiGet up "info/prepaidBalance" (ctnParams acc) w3 = .done (rb, eb) w4 →
        (eb = none → ∃ b, jget rb "balance" = .num b) →
        ∃ res, getSummary up (fuel + 1) accName w = .done (res, eb) w4) ∧
    (∀ (res : Summary) (wa wb : World) (r : JObj) (e : Err),
        (apiGet up "info/prepaidAddBalance" (ctnParams acc) wa = .done (r, some e) wb →
          getCounters up (ctnParams acc) res wa = .done res wb) ∧
        (apiGet up "info/pricePlan" (ctnParams acc) wa = .done (r, some e) wb →
          getPlanCounters up (ctnParams acc) res wa = .done res wb) ∧
        (∀ plan wc, apiGet up "info/pricePlan" (ctnParams acc) wa = .done (plan, none) wc →
          planName plan = some "VYOUNG" →
          apiGet up "info/accumulators" (ctnParams acc) wc = .done (r, some e) wb →
          getPlanCounters up (ctnParams acc) res wa = .done res wb) ∧
        (apiGet up "info/prepaidBalance" (ctnParams acc) wa = .done (r, some e) wb →
          getBalance up (ctnParams acc) res wa =
            .done ({ res with Gigabytes := goRound (res.Gigabytes * 100) / 100 }, some e) wb)) := by
  have hstep := getSummary_of_status_ok fuel hCheck hStatus
  refine ⟨?_, ?_, ?_⟩
  · intro res err w4 hret
    rw [hstep] at hret
    obtain ⟨st, res2, w2, res3, w3, _, hc, hp, hb⟩ := getMetrics_done hret
    obtain ⟨_, rb, hcall⟩ := getBalance_done hb
    have hw2 := (getCounters_done hc).1
    have hw4 := apiGet_done_world hcall
    rcases (getPlanCounters_done hp).2 with hw3 | hw3
    · refine ⟨w3, rb, [], hcall, ?_, ?_⟩
      · rw [hw4]; rfl
      · rw [hw3, hw2]; simp [World.record]
    · refine ⟨w3, rb, [⟨"info/accumulators", ctnParams acc⟩], hcall, ?_, ?_⟩
      · rw [hw4]; rfl
      · rw [hw3, hw2]; simp [World.record]
  · intro st res2 w2 res3 w3 rb eb w4 hs hc hp hb hshape
    rw [hstep, getMetrics_of_stages hs hc hp]
    cases eb with
    | some e => exact ⟨_, getBalance_of_failure hb⟩
    | none =>
      obtain ⟨b, hbal⟩ := hshape rfl
      exact ⟨_, getBalance_of_success hb hbal⟩
  · intro res wa wb r e
    exact ⟨fun h => getCounters_of_failure h, fun h => getPlanCounters_of_failure h,
      fun plan wc hp hn ha => getPlanCounters_of_accumulators_failure hp hn ha,
      fun h => getBalance_of_failure h⟩

/-- Witness of C2: against `upStatusOnly` every call after the status call is
answered with HTTP 503; all of them are issued and the error returned is the
one of the `prepaidBalance` call. -/
theorem getSummary_returns_last_error_witness :
    ∃ res, getSummary upStatusOnly 1 "home" worldDemo =
      .done (res, some "503")
        ((((worldDemo.record ⟨"info/status", [("ctn", "9031234567"), ("token", "T0")]⟩).record
          ⟨"info/prepaidAddBalance", [("ctn", "9031234567"), ("token", "T0")]⟩).record
          ⟨"info/pricePlan", [("ctn", "9031234567"), ("token", "T0")]⟩).record
          ⟨"info/prepaidBalance", [("ctn", "9031234567"), ("token", "T0")]⟩) :=
  (getSummary_returns_last_error upStatusOnly "home" worldDemo worldDemo _ 0
    { Login := 9031234567, Password := "pw", Token := "T0" }
    (envelope "OK" 20000 "OK" [("status", .str "ACTIVE")]) rfl rfl).2.1
    "ACTIVE" _ _ _ _ [] (some "503") _ rfl rfl rfl rfl (fun h => by cases h)

/-- C6: once the status call has succeeded, the `Gigabytes` field of a returned
Summary is the rounding of line 262, `math.Round(x*100)/100` in `float64`,
applied to `x` the data source of the specification: the accumulator override
`rest/2^20` of the plan `VYOUNG` when there is one, else `value/2^30` of the
first `balanceData` entry of a successful `prepaidAddBalance` call, else 0.
When the product `x*100` is finite, with magnitude `m`, `Gigabytes` is the
`float64` nearest to `n/100` for `n` the integer nearest to `m`, halves
rounded up, with the sign of the product. -/
theorem getSummary_gigabytes (up : Upstream) (accName : String) (w w0 w1 w4 : World)
    (fuel : Nat) (acc : Account) (resp : JObj) (res : Summary) (err : Option Err)
    (hCheck : checkToken up accName w = .done (acc, none) w0)
    (hStatus : apiGet up "info/status" (ctnParams acc) w0 = .done (resp, none) w1)
    (hRet : getSummary up (fuel + 1) accName w = .done (res, err) w4) :
    res.Gigabytes = goRound (specDataSource up (ctnParams acc) w1 * 100) / 100 ∧
      (∀ s m, specDataSource up (ctnParams acc) w1 * 100 = .finite s m →
        res.Gigabytes = F64.ofMag s (((⌊m + 1 / 2⌋ : Int) : ℚ) / 100)) := by
  rw [getSummary_of_status_ok fuel hCheck hStatus] at hRet
  obtain ⟨st, res2, w2, res3, w3, _, hc, hp, hb⟩ := getMetrics_done hRet
  have hg2 : res2.Gigabytes = specPrimary up (ctnParams acc) w1 := getCounters_gigabytes rfl hc
  have hw2 := (getCounters_done hc).1
  have hg3 : res3.Gigabytes = specDataSource up (ctnParams acc) w1 := by
    rw [(getPlanCounters_done hp).1, hw2]
    unfold specDataSource
    cases specOverride up (ctnParams acc)
        (w1.record ⟨"info/prepaidAddBalance", ctnParams acc⟩) with
    | none => simp only [Option.getD_none, hg2]
    | some g => simp only [Option.getD_some]
  have hg : res.Gigabytes = goRound (specDataSource up (ctnParams acc) w1 * 100) / 100 := by
    rw [(getBalance_done hb).1, hg3]
  refine ⟨hg, fun s m hm => ?_⟩
  rw [hg, hm, goRound_div_hundred]

/-- Witness of C6: 3221225472 bytes and no override give 3; the plan `VYOUNG`
with the entry `{soc: "VYOUNG", rest: 2097152}` gives 2 although
`prepaidAddBalance` reported 3221225472 bytes; 16106127.36 bytes and no
override give the `float64` nearest to 0.02. -/
theorem getSummary_gigabytes_witness :
    ((3 : F64) = goRound (specDataSource upDemo [("ctn", "9031234567"), ("token", "T0")]
        (worldDemo.record ⟨"info/status", [("ctn", "9031234567"), ("token", "T0")]⟩) * 100)
        / 100 ∧
      ∃ err w4, getSummary upDemo 1 "home" worldDemo =
        .done ({ Name := "home", Number := 9031234567, Status := "ACTIVE",
                 Gigabytes := 3, Minutes := 10, SMS := 50, Balance := 125 }, err) w4) ∧
    ((2 : F64) = goRound (specDataSource upVyoungData [("ctn", "9031234567"), ("token", "T0")]
        (worldDemo.record ⟨"info/status", [("ctn", "9031234567"), ("token", "T0")]⟩) * 100)
        / 100 ∧
      ∃ err w4, getSummary upVyoungData 1 "home" worldDemo =
        .done ({ Name := "home", Number := 9031234567, Status := "ACTIVE",
                 Gigabytes := 2, Minutes := 0, SMS := 0, Balance := 125 }, err) w4) ∧
    (F64.ofRat (2 / 100) =
        goRound (specDataSource upFraction [("ctn", "9031234567"), ("token", "T0")]
        (worldDemo.record ⟨"info/status", [("ctn", "9031234567"), ("token", "T0")]⟩) * 100)
        / 100 ∧
      ∃ err w4, getSummary upFraction 1 "home" worldDemo =
        .done ({ Name := "home", Number := 9031234567, Status := "ACTIVE",
                 Gigabytes := F64.ofRat (2 / 100), Minutes := 0, SMS := 0, Balance := 125 },
          err) w4) :=
  ⟨⟨(getSummary_gigabytes upDemo "home" worldDemo worldDemo _ _ 0
      { Login := 9031234567, Password := "pw", Token := "T0" }
      (envelope "OK" 20000 "OK" [("status", .str "ACTIVE")])
      { Name := "home", Number := 9031234567, Status := "ACTIVE",
        Gigabytes := 3, Minutes := 10, SMS := 50, Balance := 125 } none rfl rfl
      (by with_unfolding_all rfl)).1, ⟨none, _, by with_unfolding_all rfl⟩⟩,
   ⟨(getSummary_gigabytes upVyoungData "home" worldDemo worldDemo _ _ 0
      { Login := 9031234567, Password := "pw", Token := "T0" }
      (envelope "OK" 20000 "OK" [("status", .str "ACTIVE")])
      { Name := "home", Number := 9031234567, Status := "ACTIVE",
        Gigabytes := 2, Minutes := 0, SMS := 0, Balance := 125 } none rfl rfl
      (by with_unfolding_all rfl)).1, ⟨none, _, by with_unfolding_all rfl⟩⟩,
   ⟨(getSummary_gigabytes upFraction "home" worldDemo worldDemo _ _ 0
      { Login := 9031234567, Password := "pw", Token := "T0" }
      (envelope "OK" 20000 "OK" [("status", .str "ACTIVE")])
      { Name := "home", Number := 9031234567, Status := "ACTIVE",
        Gigabytes := F64.ofRat (2 / 100), Minutes := 0, SMS := 0, Balance := 125 } none rfl rfl
      (by with_unfolding_all rfl)).1, ⟨none, _, by with_unfolding_all rfl⟩⟩⟩

/-- C7 (failing input): against `upEmptyList` the status call succeeds with a
status string and the `prepaidAddBalance` call succeeds with
`"balanceTime": []`; `getSummary` panics at line 234 right after that call and
returns no Summary. -/
theorem getSummary_empty_list_panics :
    getSummary upEmptyList 1 "home" worldDemo =
      .panic ((worldDemo.record ⟨"info/status", [("ctn", "9031234567"), ("token", "T0")]⟩).record
        ⟨"info/prepaidAddBalance", [("ctn", "9031234567"), ("token", "T0")]⟩) :=
  rfl

/-- C5: for an account whose stored token is empty, every run of `getSummary`
first issues the `auth` call of `updateToken`, and what follows it, if
anything, starts with the status call carrying the account's login; when
`updateToken` fails, `getSummary` returns its error with the zero Summary and
the `auth` call is the only call issued. -/
theorem getSummary_empty_token (up : Upstream) (accName : String) (w : World) (fuel : Nat)
    (hTok : (w.CFG.account accName).Token = "") :
    (∃ rest, (getSummary up (fuel + 1) accName w).world.trace =
        w.trace ++ authRequest (w.CFG.account accName) :: rest ∧
        (rest = [] ∨ ∃ token rest2, rest = ⟨"info/status",
          [("ctn", toString (w.CFG.account accName).Login), ("token", token)]⟩ :: rest2)) ∧
    (∀ err w1, updateToken up accName w = .done (some err) w1 →
        getSummary up (fuel + 1) accName w =
          .done ({ Name := accName, Number := (w.CFG.account accName).Login, Status := "",
                   Gigabytes := 0, Minutes := 0, SMS := 0, Balance := 0 }, some err) w1 ∧
        w1.trace = w.trace ++ [authRequest (w.CFG.account accName)]) := by
  have hck := checkToken_empty up accName w hTok
  have htr := updateToken_world_trace up accName w
  constructor
  · cases hu : updateToken up accName w with
    | panic w1 =>
      rw [hu] at hck htr
      refine ⟨[], ?_, Or.inl rfl⟩
      simp only [getSummary, hck]
      exact htr
    | outOfFuel w1 =>
      rw [hu] at hck htr
      refine ⟨[], ?_, Or.inl rfl⟩
      simp only [getSummary, hck]
      exact htr
    | done e w1 =>
      rw [hu] at hck htr
      cases e with
      | some err =>
        refine ⟨[], ?_, Or.inl rfl⟩
        simp only [getSummary, hck]
        exact htr
      | none =>
        obtain ⟨t, hacc⟩ := updateToken_done_none hu
        obtain ⟨rest2, hr⟩ :=
          getSummary_after_check_step (getSummary_extends up accName fuel) hck
        have htr1 : w1.trace = w.trace ++ [authRequest (w.CFG.account accName)] := htr
        refine ⟨_, ?_, Or.inr ⟨t, rest2, rfl⟩⟩
        rw [hr, htr1, hacc]
        simp [ctnParams]
  · intro err w1 hu
    rw [hu] at hck htr
    refine ⟨?_, htr⟩
    simp only [getSummary, hck]

/-- Witness of C5: `home` has no token in `worldFresh` and the upstream is
unreachable. -/
theorem getSummary_empty_token_witness :
    (∃ rest, (getSummary upDown 1 "home" worldFresh).world.trace =
        worldFresh.trace ++ ⟨"auth", [("login", "9031234567"), ("password", "pw")]⟩ :: rest ∧
        (rest = [] ∨ ∃ token rest2, rest = ⟨"info/status",
          [("ctn", "9031234567"), ("token", token)]⟩ :: rest2)) ∧
      getSummary upDown 1 "home" worldFresh =
        .done ({ Name := "home", Number := 9031234567, Status := "",
                 Gigabytes := 0, Minutes := 0, SMS := 0, Balance := 0 },
          some "API request failed")
          (worldFresh.record ⟨"auth", [("login", "9031234567"), ("password", "pw")]⟩) :=
  ⟨(getSummary_empty_token upDown "home" worldFresh 0 rfl).1,
   ((getSummary_empty_token upDown "home" worldFresh 0 rfl).2 "API request failed" _ rfl).1⟩

/-- C3 (amended): when the status call is rejected with `TOKEN_NOT_FOUND` or
`TOKEN_EXPIRED`, `getSummary` calls `updateToken`; if that fails its error is
returned; if it succeeds the result is that of a plain `getSummary` call in the
refreshed world, with no record of the restart, so that a further rejection
restarts again. With an upstream that rejects every status call with
`TOKEN_EXPIRED` and accepts every `auth` call no recursion budget is enough:
`getSummary` does not return. -/
theorem getSummary_expiry_restart (up : Upstream) (accName : String) :
    (∀ (w w0 w1 : World) (fuel : Nat) (acc : Account) (resp : JObj) (err : Err),
        checkToken up accName w = .done (acc, none) w0 →
        apiGet up "info/status" (ctnParams acc) w0 = .done (resp, some err) w1 →
        (err = "TOKEN_NOT_FOUND" ∨ err = "TOKEN_EXPIRED") →
        (∀ e w2, updateToken up accName w1 = .done (some e) w2 →
          getSummary up (fuel + 1) accName w =
            .done ({ Name := accName, Number := (w.CFG.account accName).Login }, some e) w2) ∧
        (∀ w2, updateToken up accName w1 = .done none w2 →
          getSummary up (fuel + 1) accName w = getSummary up fuel accName w2)) ∧
    ((∀ w p, ∃ r, apiGet up "info/status" p w =
        .done (r, some "TOKEN_EXPIRED") (w.record ⟨"info/status", p⟩)) →
      (∀ w p, ∃ r t, apiGet up "auth" p w = .done (r, none) (w.record ⟨"auth", p⟩) ∧
        jget r "token" = .str t) →
      ∀ fuel w, w.CFG.Accounts ≠ none →
        ∃ w2, getSummary up fuel accName w = .outOfFuel w2) := by
  constructor
  · intro w w0 w1 fuel acc resp err hCheck hStatus hErr
    have h := getSummary_of_expired fuel hCheck hStatus hErr
    constructor
    · intro e w2 hu
      rw [h, hu]
    · intro w2 hu
      rw [h, hu]
  · intro hStatus hAuth
    exact getSummary_diverges up accName hStatus hAuth

/-- Witness of C3 (amended): against `upAlwaysExpired` the first attempt of
`home` is a plain `getSummary` call in the refreshed world, and a budget of 5
is exhausted. -/
theorem getSummary_expiry_restart_witness :
    getSummary upAlwaysExpired 2 "home" worldDemo =
        getSummary upAlwaysExpired 1 "home"
          worldRefreshed ∧
      ∃ w2, getSummary upAlwaysExpired 5 "home" worldDemo = .outOfFuel w2 :=
  ⟨((getSummary_expiry_restart upAlwaysExpired "home").1 worldDemo worldDemo _ 1
      { Login := 9031234567, Password := "pw", Token := "T0" }
      (envelope "ERROR" 20002 "TOKEN_EXPIRED" []) "TOKEN_EXPIRED" rfl rfl (Or.inr rfl)).2 _ rfl,
   (getSummary_expiry_restart upAlwaysExpired "home").2
      (fun _ _ => ⟨_, rfl⟩) (fun _ _ => ⟨_, "T1", rfl, rfl⟩) 5 worldDemo (by decide)⟩

/-- C3 (as stated) fails: against `upExpiredTwice` the status call of the retry
is rejected again, and `getSummary` refreshes a second time and returns a full
Summary with a nil error instead of a terminal error; against `upAlwaysExpired`
it returns for no recursion budget. -/
theorem getSummary_expiry_counterexample :
    (∃ w4, getSummary upExpiredTwice 3 "home" worldDemo =
        .done ({ Name := "home", Number := 9031234567, Status := "ACTIVE",
                 Gigabytes := 3, Minutes := 10, SMS := 50, Balance := 125 }, none) w4 ∧
        (w4.trace.filter fun r => r.endpoint == "auth").length = 2) ∧
      ¬ ∃ fuel r w4, getSummary upAlwaysExpired fuel "home" worldDemo = .done r w4 := by
  refine ⟨⟨_, by with_unfolding_all rfl, by decide⟩, ?_⟩
  rintro ⟨fuel, r, w4, h⟩
  obtain ⟨w2, h2⟩ := getSummary_diverges upAlwaysExpired "home"
    (fun _ _ => ⟨_, rfl⟩) (fun _ _ => ⟨_, "T1", rfl, rfl⟩) fuel worldDemo (by decide)
  rw [h2] at h
  cases h

end BeelineChecker
